import Mathlib

/-!
Shallow embedding of the versioned IR-graph migrator in
src/esp-who/components/esp-dl/tools/tvm/python/tvm/ir/json_compact.py.

Modelling conventions:
  - A JSON node record is modelled by `Node`: its `type_key` string, its
    `attrs` dictionary (string keys to string values, kept as an ordered
    association list mirroring Python dict insertion order), and the two
    optional top-level legacy fields `global_key` and `repr_str` that the
    rules touch.
  - The envelope dict `data` is modelled by `JsonData`: the version string
    stored at data.attrs.tvm_version, the node list data.nodes, and the
    root index, which no code here ever reads or writes.
  - Python in-place mutation is modelled by explicit state passing: a rule
    takes the visited node and the node table and returns both, and Python
    exceptions (KeyError, IndexError, ValueError, AssertionError) are
    modelled by `Except PyErr`.
  - The `for idx, item in enumerate(nodes)` loop of `_updater` re-reads the
    list length at every step (a Python list iterator does not capture the
    length up front), so the Lean loop tests `idx < nodes.length` against
    the current table each iteration.  Because rules may append, such a
    loop need not terminate for arbitrary rule maps, so the loop carries
    explicit fuel; `PyErr.fuel` marks exhaustion and is a modelling
    artifact, not a Python behaviour.
-/

/-- Errors of the migrator.  `cannotUpdate v` models the ValueError raised
by `upgrade_json` for an unknown source version; `invalidIntLiteral` models
the ValueError raised by `int()`; `fuel` is the modelling artifact for a
non-terminating rule-applicator loop. -/
inductive PyErr where
  | cannotUpdate (version : String)
  | assertionError (msg : String)
  | keyError (key : String)
  | indexError
  | invalidIntLiteral (s : String)
  | fuel
deriving DecidableEq

/-- A JSON graph node: `type_key`, the `attrs` dict (ordered association
list of string keys and string values), and the optional legacy top-level
fields `global_key` and `repr_str`. -/
structure Node where
  type_key : String
  attrs : List (String × String)
  global_key : Option String
  repr_str : Option String
deriving DecidableEq

/-- The decoded envelope: `version` models data.attrs.tvm_version, `nodes`
models data.nodes, `root` models the root index (never touched). -/
structure JsonData where
  version : String
  nodes : List Node
  root : Nat
deriving DecidableEq

/-- Python dict read `m[k]` on an attrs dict, as an Option. -/
def getAttr : List (String × String) → String → Option String
  | [], _ => none
  | (k', v) :: rest, k => if k' = k then some v else getAttr rest k

/-- Python dict write `m[k] = v`: replace in place if the key is present,
else append at the end (dict insertion order). -/
def setAttr : List (String × String) → String → String → List (String × String)
  | [], k, v => [(k, v)]
  | (k', v') :: rest, k, v =>
      if k' = k then (k', v) :: rest else (k', v') :: setAttr rest k v

/-- Python dict delete `del m[k]` (keys are unique in a Python dict, so
removing the first occurrence is faithful). -/
def delAttr : List (String × String) → String → List (String × String)
  | [], _ => []
  | (k', v') :: rest, k => if k' = k then rest else (k', v') :: delAttr rest k

/-- Python `s.startswith(p)`, computed on the underlying character lists. -/
def pyStartswith (s p : String) : Bool :=
  List.isPrefixOf p.data s.data

/-- Python string slice `s[n:]`, computed on the underlying character list. -/
def pyDrop (s : String) (n : Nat) : String :=
  String.mk (s.data.drop n)

/-- Digit-string evaluation used by `pyInt`. -/
def digitsVal : List Char → Nat → Option Nat
  | [], acc => some acc
  | c :: cs, acc =>
      if c.isDigit then digitsVal cs (acc * 10 + (c.toNat - 48)) else none

/-- Python `int(s)` on the optionally sign-prefixed decimal strings this
migrator stores in attributes (whitespace and underscore forms of the
Python literal syntax are not exercised by this code and are not
modelled). -/
def pyInt (s : String) : Option Int :=
  match s.data with
  | [] => none
  | '-' :: [] => none
  | '-' :: c :: cs => (digitsVal (c :: cs) 0).map (fun n => -(n : Int))
  | l => (digitsVal l 0).map (fun n => (n : Int))

/-- Python list indexing: resolve an integer index (negative indices count
from the end) to a position, or fail as an IndexError would. -/
def pyIndex (len : Nat) (i : Int) : Option Nat :=
  if 0 ≤ i then (if i < (len : Int) then some i.toNat else none)
  else (if 0 ≤ (len : Int) + i then some ((len : Int) + i).toNat else none)

/-- A rewrite rule `(item, nodes) -> item`, with the in-place table
mutation made explicit in the result. -/
def Rule : Type :=
  Node → List Node → Except PyErr (Node × List Node)

/-- A value of the Python `node_map` dict: either a single function or a
list of functions (the code tests `isinstance(f, list)`). -/
inductive RuleEntry where
  | one (r : Rule)
  | many (rs : List Rule)

/-- The `node_map` dict: type_key to rule entry. -/
def NodeMap : Type :=
  List (String × RuleEntry)

/-- Python `node_map.get(type_key, None)`. -/
def lookupRules : NodeMap → String → Option RuleEntry
  | [], _ => none
  | (k', e) :: rest, k => if k' = k then some e else lookupRules rest k

/-- The inner loop of `_updater` over a list-valued rule entry:
`for fpass in f: item = fpass(item, nodes)`. -/
def applyRuleList : List Rule → Node → List Node → Except PyErr (Node × List Node)
  | [], item, nodes => .ok (item, nodes)
  | r :: rs, item, nodes =>
      match r item nodes with
      | .error e => .error e
      | .ok (item', nodes') => applyRuleList rs item' nodes'

/-- The `for idx, item in enumerate(nodes)` loop of `_updater`
(json_compact.py lines 46 to 53).  The bound `idx < nodes.length` is
re-evaluated against the current table each iteration, exactly as a Python
list iterator does, so entries appended by a rule are themselves visited.
After the rule chain for a visited index, `nodes[idx] = item` is the
write-back `List.set`.  `fuel` bounds the number of iterations (see the
file header). -/
def updaterLoop (m : NodeMap) : Nat → Nat → List Node → Except PyErr (List Node)
  | 0, _, _ => .error .fuel
  | fuel + 1, idx, nodes =>
      if h : idx < nodes.length then
        let item := nodes.get ⟨idx, h⟩
        match lookupRules m item.type_key with
        | some (.many fs) =>
            match applyRuleList fs item nodes with
            | .error e => .error e
            | .ok (item', nodes') => updaterLoop m fuel (idx + 1) (nodes'.set idx item')
        | some (.one f) =>
            match f item nodes with
            | .error e => .error e
            | .ok (item', nodes') => updaterLoop m fuel (idx + 1) (nodes'.set idx item')
        | none => updaterLoop m fuel (idx + 1) (nodes.set idx item)
      else .ok nodes

/-- `_updater` (json_compact.py lines 43 to 55): assert the version string
starts with `from_ver`, run the pass over the table, then stamp `to_ver`. -/
def updater (m : NodeMap) (from_ver to_ver : String) (fuel : Nat) (data : JsonData) :
    Except PyErr JsonData :=
  if pyStartswith data.version from_ver then
    match updaterLoop m fuel 0 data.nodes with
    | .ok ns => .ok { data with version := to_ver, nodes := ns }
    | .error e => .error e
  else .error (.assertionError "tvm_version does not start with from_ver")

/-- `_initialize_virtual_device` of `create_updater_08_to_09`
(json_compact.py lines 70 to 73): fill attrs.virtual_device_ with "0" when
missing.  Note: no type_key check of any kind. -/
def _initialize_virtual_device : Rule := fun item nodes =>
  if (getAttr item.attrs "virtual_device_").isSome then .ok (item, nodes)
  else .ok ({ item with attrs := setAttr item.attrs "virtual_device_" "0" }, nodes)

/-- `_initialize_module_attributes` of `create_updater_07_to_08`
(json_compact.py lines 98 to 102): assert the node is an IRModule, then
fill attrs.attrs with "0" when missing. -/
def _initialize_module_attributes : Rule := fun item nodes =>
  if item.type_key = "IRModule" then
    if (getAttr item.attrs "attrs").isSome then .ok (item, nodes)
    else .ok ({ item with attrs := setAttr item.attrs "attrs" "0" }, nodes)
  else .error (.assertionError "Only initialize the attributes for IRModules")

/-- `_rename(new_name)` (json_compact.py lines 127 to 132). -/
def _rename (new_name : String) : Rule := fun item nodes =>
  .ok ({ item with type_key := new_name }, nodes)

/-- `_update_tir_var(new_name)` (json_compact.py lines 134 to 140). -/
def _update_tir_var (new_name : String) : Rule := fun item nodes =>
  .ok ({ item with
          type_key := new_name,
          attrs := setAttr item.attrs "type_annotation" "0" }, nodes)

/-- `_update_global_key` (json_compact.py lines 142 to 146): move the
top-level `global_key` field to `repr_str` when present. -/
def _update_global_key : Rule := fun item nodes =>
  match item.global_key with
  | some g => .ok ({ item with repr_str := some g, global_key := none }, nodes)
  | none => .ok (item, nodes)

/-- Modelled from the spec: the value-encoding collaborator
`tvm.ir.save_json(tvm.runtime.String(str_val))` used by
`_update_from_std_str` is code of this repository that is not under src/.
Per the spec it is an opaque black box that, given a primitive scalar,
returns a minimal node-table fragment representing that scalar in current
format together with the root index of the fragment; the rule appends the
root node of that fragment.  We model that root node as a current-format
runtime.String node carrying the string in `repr_str`. -/
def save_json_string_root (s : String) : Node :=
  { type_key := "runtime.String", attrs := [], global_key := none, repr_str := some s }

/-- `_update_from_std_str(key)` (json_compact.py lines 148 to 159): read
the scalar attribute, encode it as a current-format node, append that node
at index `len(nodes)`, and replace the attribute with that index printed
in decimal. -/
def _update_from_std_str (key : String) : Rule := fun item nodes =>
  match getAttr item.attrs key with
  | none => .error (.keyError key)
  | some str_val =>
      let val := save_json_string_root str_val
      let sidx := nodes.length
      .ok ({ item with attrs := setAttr item.attrs key (Nat.repr sidx) },
           nodes ++ [val])

/-- `_ftype_var` (json_compact.py lines 117 to 125): parse attrs.var as an
integer index, copy attrs.name of the referenced node onto this node as
attrs.name_hint, tombstone the referenced node by blanking its type_key,
delete attrs.var, assert the type_key starts with "relay." and strip that
namespace on this node. -/
def _ftype_var : Rule := fun item nodes =>
  match getAttr item.attrs "var" with
  | none => .error (.keyError "var")
  | some varStr =>
    match pyInt varStr with
    | none => .error (.invalidIntLiteral varStr)
    | some vindex =>
      match pyIndex nodes.length vindex with
      | none => .error .indexError
      | some j =>
        match nodes.get? j with
        | none => .error .indexError
        | some ref =>
          match getAttr ref.attrs "name" with
          | none => .error (.keyError "name")
          | some nm =>
            let item1 := { item with attrs := setAttr item.attrs "name_hint" nm }
            let nodes1 := nodes.set j { ref with type_key := "" }
            let item2 := { item1 with attrs := delAttr item1.attrs "var" }
            if pyStartswith item2.type_key "relay." then
              .ok ({ item2 with type_key := pyDrop item2.type_key "relay.".length },
                   nodes1)
            else .error (.assertionError "type_key does not start with relay.")

/-- The `node_map` dict of `create_updater_08_to_09` (json_compact.py
lines 75 to 90). -/
def node_map_08_09 : NodeMap :=
  [("GlobalVar", .one _initialize_virtual_device),
   ("relay.Var", .one _initialize_virtual_device),
   ("relay.Function", .one _initialize_virtual_device),
   ("relay.Tuple", .one _initialize_virtual_device),
   ("relay.Call", .one _initialize_virtual_device),
   ("relay.Let", .one _initialize_virtual_device),
   ("relay.If", .one _initialize_virtual_device),
   ("relay.TupleGetItem", .one _initialize_virtual_device),
   ("relay.RefCreate", .one _initialize_virtual_device),
   ("relay.RefRead", .one _initialize_virtual_device),
   ("relay.RefWrite", .one _initialize_virtual_device),
   ("relay.Match", .one _initialize_virtual_device),
   ("relay.Constant", .one _initialize_virtual_device)]

/-- The `node_map` dict of `create_updater_07_to_08` (json_compact.py
line 104). -/
def node_map_07_08 : NodeMap :=
  [("IRModule", .one _initialize_module_attributes)]

/-- The `node_map` dict of `create_updater_06_to_07` (json_compact.py
lines 161 to 236). -/
def node_map_06_07 : NodeMap :=
  [("SourceName", .one _update_global_key),
   ("EnvFunc", .one _update_global_key),
   ("relay.Op", .many [_update_global_key, _rename "Op"]),
   ("relay.TypeVar", .many [_ftype_var, _update_from_std_str "name_hint"]),
   ("TypeVar", .one (_update_from_std_str "name_hint")),
   ("relay.Id", .many [_update_from_std_str "name_hint"]),
   ("relay.GlobalTypeVar", .many [_ftype_var, _update_from_std_str "name_hint"]),
   ("GlobalTypeVar", .one (_update_from_std_str "name_hint")),
   ("relay.Type", .one (_rename "Type")),
   ("relay.TupleType", .one (_rename "TupleType")),
   ("relay.TypeConstraint", .one (_rename "TypeConstraint")),
   ("relay.FuncType", .one (_rename "FuncType")),
   ("relay.IncompleteType", .one (_rename "IncompleteType")),
   ("relay.TypeRelation", .one (_rename "TypeRelation")),
   ("relay.TypeCall", .one (_rename "TypeCall")),
   ("relay.Constructor", .one (_update_from_std_str "name_hint")),
   ("relay.Module", .one (_rename "IRModule")),
   ("relay.SourceName", .one (_rename "SourceName")),
   ("relay.Span", .one (_rename "Span")),
   ("relay.GlobalVar", .many [_rename "GlobalVar", _update_from_std_str "name_hint"]),
   ("GlobalVar", .one (_update_from_std_str "name_hint")),
   ("relay.Pass", .one (_rename "transform.Pass")),
   ("relay.PassInfo", .one (_rename "transform.PassInfo")),
   ("relay.PassContext", .one (_rename "transform.PassContext")),
   ("relay.ModulePass", .one (_rename "transform.ModulePass")),
   ("relay.Sequential", .one (_rename "transform.Sequential")),
   ("StrMap", .one (_rename "Map")),
   ("Variable", .many [_update_tir_var "tir.Var", _update_from_std_str "name"]),
   ("SizeVar", .many [_update_tir_var "tir.SizeVar", _update_from_std_str "name"]),
   ("StringImm", .many [_rename "tir.StringImm", _update_from_std_str "value"]),
   ("Cast", .one (_rename "tir.Cast")),
   ("Add", .one (_rename "tir.Add")),
   ("Sub", .one (_rename "tir.Sub")),
   ("Mul", .one (_rename "tir.Mul")),
   ("Div", .one (_rename "tir.Div")),
   ("Mod", .one (_rename "tir.Mod")),
   ("FloorDiv", .one (_rename "tir.FloorDiv")),
   ("FloorMod", .one (_rename "tir.FloorMod")),
   ("Min", .one (_rename "tir.Min")),
   ("Max", .one (_rename "tir.Max")),
   ("EQ", .one (_rename "tir.EQ")),
   ("NE", .one (_rename "tir.NE")),
   ("LT", .one (_rename "tir.LT")),
   ("LE", .one (_rename "tir.LE")),
   ("GT", .one (_rename "tir.GT")),
   ("GE", .one (_rename "tir.GE")),
   ("And", .one (_rename "tir.And")),
   ("Or", .one (_rename "tir.Or")),
   ("Not", .one (_rename "tir.Not")),
   ("Select", .one (_rename "tir.Select")),
   ("BufferLoad", .one (_rename "tir.BufferLoad")),
   ("Ramp", .one (_rename "tir.Ramp")),
   ("Broadcast", .one (_rename "tir.Broadcast")),
   ("Shuffle", .one (_rename "tir.Shuffle")),
   ("Call", .many [_rename "tir.Call", _update_from_std_str "name"]),
   ("Let", .one (_rename "tir.Let")),
   ("Any", .one (_rename "tir.Any")),
   ("LetStmt", .one (_rename "tir.LetStmt")),
   ("AssertStmt", .one (_rename "tir.AssertStmt")),
   ("BufferStore", .one (_rename "tir.BufferStore")),
   ("BufferRealize", .one (_rename "tir.BufferRealize")),
   ("Allocate", .one (_rename "tir.Allocate")),
   ("IfThenElse", .one (_rename "tir.IfThenElse")),
   ("Evaluate", .one (_rename "tir.Evaluate")),
   ("Prefetch", .one (_rename "tir.Prefetch")),
   ("AttrStmt", .many [_rename "tir.AttrStmt", _update_from_std_str "attr_key"]),
   ("Layout", .many [_rename "tir.Layout", _update_from_std_str "name"]),
   ("Buffer", .many [_rename "tir.Buffer", _update_from_std_str "name",
                     _update_from_std_str "scope"])]

/-- `create_updater_06_to_07` applied to data (fuel made explicit). -/
def create_updater_06_to_07 (fuel : Nat) : JsonData → Except PyErr JsonData :=
  updater node_map_06_07 "0.6" "0.7" fuel

/-- `create_updater_07_to_08` applied to data (fuel made explicit). -/
def create_updater_07_to_08 (fuel : Nat) : JsonData → Except PyErr JsonData :=
  updater node_map_07_08 "0.7" "0.8" fuel

/-- `create_updater_08_to_09` applied to data (fuel made explicit). -/
def create_updater_08_to_09 (fuel : Nat) : JsonData → Except PyErr JsonData :=
  updater node_map_08_09 "0.8" "0.9" fuel

/-- `upgrade_json` (json_compact.py lines 240 to 264), at the level of the
decoded envelope (json.loads and json.dumps are the codec, a presentation
detail).  Python exception propagation through the nested calls is
modelled by matching on the Except results. -/
def upgrade_json (fuel : Nat) (data : JsonData) : Except PyErr JsonData :=
  if pyStartswith data.version "0.6" then
    match create_updater_06_to_07 fuel data with
    | .error e => .error e
    | .ok d1 =>
      match create_updater_07_to_08 fuel d1 with
      | .error e => .error e
      | .ok d2 => create_updater_08_to_09 fuel d2
  else if pyStartswith data.version "0.7" then
    match create_updater_07_to_08 fuel data with
    | .error e => .error e
    | .ok d1 => create_updater_08_to_09 fuel d1
  else if pyStartswith data.version "0.8" then
    create_updater_08_to_09 fuel data
  else .error (.cannotUpdate data.version)

/-!
Invariant framework: every rule registered in the three node maps of the
source (a) never raises the unknown-source-version ValueError, which only
`upgrade_json` raises, and (b) never shrinks the node table.
-/

/-- The rule never returns the unknown-source-version error. -/
def RuleNoCU (r : Rule) : Prop :=
  ∀ it ns v, r it ns ≠ .error (.cannotUpdate v)

/-- The rule never shrinks the node table. -/
def RuleGrows (r : Rule) : Prop :=
  ∀ it ns it' ns', r it ns = .ok (it', ns') → ns.length ≤ ns'.length

/-- Both rule invariants together. -/
def GoodRule (r : Rule) : Prop :=
  RuleNoCU r ∧ RuleGrows r

/-- All rules of a list satisfy both invariants. -/
def GoodRules : List Rule → Prop
  | [] => True
  | r :: rs => GoodRule r ∧ GoodRules rs

/-- Both invariants for a node_map entry. -/
def GoodEntry : RuleEntry → Prop
  | .one r => GoodRule r
  | .many rs => GoodRules rs

/-- Both invariants for every entry of a node_map. -/
def GoodMap : NodeMap → Prop
  | [] => True
  | p :: rest => GoodEntry p.2 ∧ GoodMap rest

theorem goodRule_rename (s : String) : GoodRule (_rename s) := by
  constructor
  · intro it ns v h
    simp [_rename] at h
  · intro it ns it' ns' h
    simp only [_rename, Except.ok.injEq, Prod.mk.injEq] at h
    exact h.2 ▸ Nat.le_refl _

theorem goodRule_update_tir_var (s : String) : GoodRule (_update_tir_var s) := by
  constructor
  · intro it ns v h
    simp [_update_tir_var] at h
  · intro it ns it' ns' h
    simp only [_update_tir_var, Except.ok.injEq, Prod.mk.injEq] at h
    exact h.2 ▸ Nat.le_refl _

theorem goodRule_update_global_key : GoodRule _update_global_key := by
  constructor
  · intro it ns v h
    unfold _update_global_key at h
    split at h <;> simp at h
  · intro it ns it' ns' h
    unfold _update_global_key at h
    split at h <;>
      (simp only [Except.ok.injEq, Prod.mk.injEq] at h; exact h.2 ▸ Nat.le_refl _)

theorem goodRule_update_from_std_str (k : String) :
    GoodRule (_update_from_std_str k) := by
  constructor
  · intro it ns v h
    unfold _update_from_std_str at h
    split at h <;> simp at h
  · intro it ns it' ns' h
    unfold _update_from_std_str at h
    split at h
    · simp at h
    · simp only [Except.ok.injEq, Prod.mk.injEq] at h
      rw [← h.2, List.length_append]
      exact Nat.le_add_right _ _

theorem goodRule_ftype_var : GoodRule _ftype_var := by
  constructor
  · intro it ns v h
    unfold _ftype_var at h
    repeat' split at h
    all_goals (try (dsimp only at h; split at h))
    all_goals simp_all
  · intro it ns it' ns' h
    unfold _ftype_var at h
    repeat' split at h
    all_goals (try (dsimp only at h; split at h))
    all_goals try exact Except.noConfusion h
    simp only [Except.ok.injEq, Prod.mk.injEq] at h
    rw [← h.2, List.length_set]

theorem goodRule_init_virtual_device : GoodRule _initialize_virtual_device := by
  constructor
  · intro it ns v h
    unfold _initialize_virtual_device at h
    split at h <;> simp at h
  · intro it ns it' ns' h
    unfold _initialize_virtual_device at h
    split at h <;>
      (simp only [Except.ok.injEq, Prod.mk.injEq] at h; exact h.2 ▸ Nat.le_refl _)

theorem goodRule_init_module_attributes : GoodRule _initialize_module_attributes := by
  constructor
  · intro it ns v h
    unfold _initialize_module_attributes at h
    repeat' split at h
    all_goals simp_all
  · intro it ns it' ns' h
    unfold _initialize_module_attributes at h
    repeat' split at h
    all_goals try exact Except.noConfusion h
    all_goals (simp only [Except.ok.injEq, Prod.mk.injEq] at h;
               exact h.2 ▸ Nat.le_refl _)

theorem goodMap_08_09 : GoodMap node_map_08_09 :=
  ⟨goodRule_init_virtual_device, goodRule_init_virtual_device,
   goodRule_init_virtual_device, goodRule_init_virtual_device,
   goodRule_init_virtual_device, goodRule_init_virtual_device,
   goodRule_init_virtual_device, goodRule_init_virtual_device,
   goodRule_init_virtual_device, goodRule_init_virtual_device,
   goodRule_init_virtual_device, goodRule_init_virtual_device,
   goodRule_init_virtual_device, trivial⟩

theorem goodMap_07_08 : GoodMap node_map_07_08 :=
  ⟨goodRule_init_module_attributes, trivial⟩

theorem goodMap_06_07 : GoodMap node_map_06_07 :=
  ⟨goodRule_update_global_key,
   goodRule_update_global_key,
   ⟨goodRule_update_global_key, goodRule_rename "Op", trivial⟩,
   ⟨goodRule_ftype_var, goodRule_update_from_std_str "name_hint", trivial⟩,
   goodRule_update_from_std_str "name_hint",
   ⟨goodRule_update_from_std_str "name_hint", trivial⟩,
   ⟨goodRule_ftype_var, goodRule_update_from_std_str "name_hint", trivial⟩,
   goodRule_update_from_std_str "name_hint",
   goodRule_rename "Type",
   goodRule_rename "TupleType",
   goodRule_rename "TypeConstraint",
   goodRule_rename "FuncType",
   goodRule_rename "IncompleteType",
   goodRule_rename "TypeRelation",
   goodRule_rename "TypeCall",
   goodRule_update_from_std_str "name_hint",
   goodRule_rename "IRModule",
   goodRule_rename "SourceName",
   goodRule_rename "Span",
   ⟨goodRule_rename "GlobalVar", goodRule_update_from_std_str "name_hint", trivial⟩,
   goodRule_update_from_std_str "name_hint",
   goodRule_rename "transform.Pass",
   goodRule_rename "transform.PassInfo",
   goodRule_rename "transform.PassContext",
   goodRule_rename "transform.ModulePass",
   goodRule_rename "transform.Sequential",
   goodRule_rename "Map",
   ⟨goodRule_update_tir_var "tir.Var", goodRule_update_from_std_str "name", trivial⟩,
   ⟨goodRule_update_tir_var "tir.SizeVar", goodRule_update_from_std_str "name", trivial⟩,
   ⟨goodRule_rename "tir.StringImm", goodRule_update_from_std_str "value", trivial⟩,
   goodRule_rename "tir.Cast",
   goodRule_rename "tir.Add",
   goodRule_rename "tir.Sub",
   goodRule_rename "tir.Mul",
   goodRule_rename "tir.Div",
   goodRule_rename "tir.Mod",
   goodRule_rename "tir.FloorDiv",
   goodRule_rename "tir.FloorMod",
   goodRule_rename "tir.Min",
   goodRule_rename "tir.Max",
   goodRule_rename "tir.EQ",
   goodRule_rename "tir.NE",
   goodRule_rename "tir.LT",
   goodRule_rename "tir.LE",
   goodRule_rename "tir.GT",
   goodRule_rename "tir.GE",
   goodRule_rename "tir.And",
   goodRule_rename "tir.Or",
   goodRule_rename "tir.Not",
   goodRule_rename "tir.Select",
   goodRule_rename "tir.BufferLoad",
   goodRule_rename "tir.Ramp",
   goodRule_rename "tir.Broadcast",
   goodRule_rename "tir.Shuffle",
   ⟨goodRule_rename "tir.Call", goodRule_update_from_std_str "name", trivial⟩,
   goodRule_rename "tir.Let",
   goodRule_rename "tir.Any",
   goodRule_rename "tir.LetStmt",
   goodRule_rename "tir.AssertStmt",
   goodRule_rename "tir.BufferStore",
   goodRule_rename "tir.BufferRealize",
   goodRule_rename "tir.Allocate",
   goodRule_rename "tir.IfThenElse",
   goodRule_rename "tir.Evaluate",
   goodRule_rename "tir.Prefetch",
   ⟨goodRule_rename "tir.AttrStmt", goodRule_update_from_std_str "attr_key", trivial⟩,
   ⟨goodRule_rename "tir.Layout", goodRule_update_from_std_str "name", trivial⟩,
   ⟨goodRule_rename "tir.Buffer", goodRule_update_from_std_str "name",
    goodRule_update_from_std_str "scope", trivial⟩,
   trivial⟩

/-- A successful lookup in a good map yields a good entry. -/
theorem goodMap_lookup {m : NodeMap} (hm : GoodMap m) {k : String} {e : RuleEntry}
    (he : lookupRules m k = some e) : GoodEntry e := by
  induction m with
  | nil => exact Option.noConfusion he
  | cons p rest ih =>
    obtain ⟨k', e'⟩ := p
    rw [lookupRules] at he
    split at he
    · cases he
      exact hm.1
    · exact ih hm.2 he

/-- A chain of good rules never returns the unknown-source-version error. -/
theorem applyRuleList_noCU {rs : List Rule} (hrs : GoodRules rs) :
    ∀ it ns v, applyRuleList rs it ns ≠ .error (.cannotUpdate v) := by
  induction rs with
  | nil => intro it ns v h; exact Except.noConfusion h
  | cons r rest ih =>
    intro it ns v h
    rw [applyRuleList] at h
    split at h
    · cases h
      exact hrs.1.1 it ns v (by assumption)
    · exact ih hrs.2 _ _ v h

/-- A chain of good rules never shrinks the table. -/
theorem applyRuleList_grows {rs : List Rule} (hrs : GoodRules rs) :
    ∀ it ns it' ns', applyRuleList rs it ns = .ok (it', ns') →
      ns.length ≤ ns'.length := by
  induction rs with
  | nil =>
    intro it ns it' ns' h
    rw [applyRuleList] at h
    cases h
    exact Nat.le_refl _
  | cons r rest ih =>
    intro it ns it' ns' h
    rw [applyRuleList] at h
    split at h
    · exact Except.noConfusion h
    · exact Nat.le_trans (hrs.1.2 it ns _ _ (by assumption)) (ih hrs.2 _ _ _ _ h)

/-- The rule-applicator loop over a good map never returns the
unknown-source-version error. -/
theorem updaterLoop_noCU {m : NodeMap} (hm : GoodMap m) :
    ∀ fuel idx ns v, updaterLoop m fuel idx ns ≠ .error (.cannotUpdate v) := by
  intro fuel
  induction fuel with
  | zero => intro idx ns v h; rw [updaterLoop] at h; cases h
  | succ f ih =>
    intro idx ns v h
    rw [updaterLoop] at h
    split at h
    · dsimp only at h
      split at h
      · rename_i fs hlook
        split at h
        · rename_i e hchain
          cases h
          exact applyRuleList_noCU (goodMap_lookup hm hlook) _ _ v hchain
        · exact ih _ _ v h
      · rename_i f1 hlook
        split at h
        · rename_i e hrule
          cases h
          exact (goodMap_lookup hm hlook).1 _ _ v hrule
        · exact ih _ _ v h
      · exact ih _ _ v h
    · exact Except.noConfusion h

/-- The rule-applicator loop over a good map never shrinks the table. -/
theorem updaterLoop_grows {m : NodeMap} (hm : GoodMap m) :
    ∀ fuel idx ns ns', updaterLoop m fuel idx ns = .ok ns' →
      ns.length ≤ ns'.length := by
  intro fuel
  induction fuel with
  | zero => intro idx ns ns' h; rw [updaterLoop] at h; cases h
  | succ f ih =>
    intro idx ns ns' h
    rw [updaterLoop] at h
    split at h
    · dsimp only at h
      split at h
      · rename_i fs hlook
        split at h
        · exact Except.noConfusion h
        · rename_i item1 nodes1 hchain
          have h1 : ns.length ≤ nodes1.length :=
            applyRuleList_grows (goodMap_lookup hm hlook) _ _ _ _ hchain
          have h2 := ih _ _ _ h
          rw [List.length_set] at h2
          exact Nat.le_trans h1 h2
      · rename_i f1 hlook
        split at h
        · exact Except.noConfusion h
        · rename_i item1 nodes1 hrule
          have h1 : ns.length ≤ nodes1.length :=
            (goodMap_lookup hm hlook).2 _ _ _ _ hrule
          have h2 := ih _ _ _ h
          rw [List.length_set] at h2
          exact Nat.le_trans h1 h2
      · have h2 := ih _ _ _ h
        rw [List.length_set] at h2
        exact h2
    · cases h
      exact Nat.le_refl _

/-- Writing back the element just read leaves the list unchanged. -/
theorem list_set_get_self : ∀ (l : List Node) (i : Nat) (h : i < l.length),
    l.set i (l.get ⟨i, h⟩) = l := by
  intro l
  induction l with
  | nil => intro i h; exact absurd h (Nat.not_lt_zero i)
  | cons a t ih =>
    intro i h
    cases i with
    | zero => rfl
    | succ j =>
      have hj : j < t.length := Nat.lt_of_succ_lt_succ h
      show a :: t.set j ((a :: t).get ⟨j + 1, h⟩) = a :: t
      rw [show (a :: t).get ⟨j + 1, h⟩ = t.get ⟨j, hj⟩ from rfl, ih j hj]

/-- A successful `_updater` call stamps exactly the target version and
leaves the root untouched. -/
theorem updater_ok_shape {m : NodeMap} {fv tv : String} {fuel : Nat}
    {d d' : JsonData} (h : updater m fv tv fuel d = .ok d') :
    d'.version = tv ∧ d'.root = d.root ∧
      updaterLoop m fuel 0 d.nodes = .ok d'.nodes := by
  unfold updater at h
  split at h
  · split at h
    · cases h
      exact ⟨rfl, rfl, by assumption⟩
    · exact Except.noConfusion h
  · exact Except.noConfusion h

/-- `_updater` over a good map never returns the unknown-source-version
error (its own failures are assertions or rule errors). -/
theorem updater_noCU {m : NodeMap} (hm : GoodMap m) {fv tv : String}
    {fuel : Nat} {d : JsonData} :
    ∀ v, updater m fv tv fuel d ≠ .error (.cannotUpdate v) := by
  intro v h
  unfold updater at h
  split at h
  · split at h
    · exact Except.noConfusion h
    · rename_i e herr
      cases h
      exact updaterLoop_noCU hm _ _ _ v herr
  · cases h

/-- C2 (counterexample): the claim says migrating a snapshot already at the
terminal version "0.9" is a no-op returning semantically identical content.
On the code it is not: "0.9" starts with none of "0.6", "0.7", "0.8", so
`upgrade_json` raises the cannot-update ValueError and returns no output. -/
theorem thm_C2_cex :
    upgrade_json 3
      ⟨"0.9", [⟨"IRModule", [("attrs", "0")], none, none⟩], 0⟩ =
      .error (.cannotUpdate "0.9") := by
  rfl

/-- C2 (amended): for every snapshot whose declared version equals the
terminal version "0.9", no rule set is selected and `upgrade_json` fails
fatally with the cannot-update error carrying that version, instead of
returning the input unchanged. -/
theorem thm_C2 (fuel : Nat) (d : JsonData) (h : d.version = "0.9") :
    upgrade_json fuel d = .error (.cannotUpdate "0.9") := by
  unfold upgrade_json
  rw [h]
  rfl

/-- C2 witness: the amended theorem applied at a concrete snapshot. -/
theorem thm_C2_witness :
    upgrade_json 7 ⟨"0.9", [], 5⟩ = .error (.cannotUpdate "0.9") :=
  thm_C2 7 ⟨"0.9", [], 5⟩ rfl

/-- C3: `upgrade_json` fails with the cannot-update error exactly when the
declared version is a prefix-match of none of the known source versions
"0.6", "0.7", "0.8" (so a trailing suffix as in "0.6.1" is accepted), and
the error carries exactly the declared version; whenever some known source
version is a prefix of the declared version a migration chain is selected
and the cannot-update error cannot be produced. -/
theorem thm_C3 (fuel : Nat) (d : JsonData) (v : String) :
    upgrade_json fuel d = .error (.cannotUpdate v) ↔
      (v = d.version ∧ pyStartswith d.version "0.6" = false ∧
        pyStartswith d.version "0.7" = false ∧
        pyStartswith d.version "0.8" = false) := by
  constructor
  · intro h
    unfold upgrade_json at h
    split_ifs at h with h6 h7 h8
    · exfalso
      cases hc : create_updater_06_to_07 fuel d with
      | error e =>
        simp only [hc] at h
        injection h with h2
        subst h2
        exact updater_noCU goodMap_06_07 v hc
      | ok d1 =>
        simp only [hc] at h
        cases hc2 : create_updater_07_to_08 fuel d1 with
        | error e =>
          simp only [hc2] at h
          injection h with h2
          subst h2
          exact updater_noCU goodMap_07_08 v hc2
        | ok d2 =>
          simp only [hc2] at h
          exact updater_noCU goodMap_08_09 v h
    · exfalso
      cases hc : create_updater_07_to_08 fuel d with
      | error e =>
        simp only [hc] at h
        injection h with h2
        subst h2
        exact updater_noCU goodMap_07_08 v hc
      | ok d1 =>
        simp only [hc] at h
        exact updater_noCU goodMap_08_09 v h
    · exact absurd h (updater_noCU goodMap_08_09 v)
    · injection h with h2
      injection h2 with h3
      exact ⟨h3.symm, Bool.not_eq_true _ ▸ h6, Bool.not_eq_true _ ▸ h7,
             Bool.not_eq_true _ ▸ h8⟩
  · intro hs
    obtain ⟨hv, h6, h7, h8⟩ := hs
    unfold upgrade_json
    rw [h6, h7, h8, hv]
    rfl

/-- C3 witness: the unrecognized version "0.3" of the spec scenario yields
exactly the cannot-update error. -/
theorem thm_C3_witness :
    upgrade_json 1 ⟨"0.3", [], 0⟩ = .error (.cannotUpdate "0.3") :=
  (thm_C3 1 ⟨"0.3", [], 0⟩ "0.3").mpr ⟨rfl, rfl, rfl, rfl⟩

/-- C4: for every snapshot whose declared version starts with "0.6",
migrating it directly to the terminal version equals first applying only
the 0.6-to-0.7 updater and then migrating the resulting snapshot (which is
stamped "0.7") to the terminal version as a separate call: the edges
0.6-0.7, 0.7-0.8, 0.8-0.9 are applied in increasing order, never skipped
or reordered, and the composition is associative. -/
theorem thm_C4 (fuel : Nat) (d : JsonData)
    (h : pyStartswith d.version "0.6" = true) :
    upgrade_json fuel d =
      (match create_updater_06_to_07 fuel d with
       | .error e => .error e
       | .ok d1 => upgrade_json fuel d1) := by
  have h69 : upgrade_json fuel d =
      (match create_updater_06_to_07 fuel d with
       | .error e => .error e
       | .ok d1 =>
         match create_updater_07_to_08 fuel d1 with
         | .error e => .error e
         | .ok d2 => create_updater_08_to_09 fuel d2) := by
    unfold upgrade_json
    rw [h]
    rfl
  rw [h69]
  cases hc : create_updater_06_to_07 fuel d with
  | error e => rfl
  | ok d1 =>
    have hv : d1.version = "0.7" := (updater_ok_shape hc).1
    unfold upgrade_json
    dsimp only
    rw [hv]
    rfl

/-- C4 witness: the chain decomposition applied at a concrete snapshot at
version "0.6". -/
theorem thm_C4_witness :
    upgrade_json 1 ⟨"0.6", [], 0⟩ =
      (match create_updater_06_to_07 1 ⟨"0.6", [], 0⟩ with
       | .error e => .error e
       | .ok d1 => upgrade_json 1 d1) :=
  thm_C4 1 ⟨"0.6", [], 0⟩ rfl

/-- C5: (a) the attribute-promotion rule applied to a node holding a
scalar value at key k appends exactly one node, representing that value in
current format, at index equal to the table length before the append, and
replaces the attribute with that index printed as a decimal string; and
(b) the 0.6.1 scenario: a snapshot at version "0.6.1" with the single node
Variable/name=x migrates to the terminal version with the node renamed to
the namespaced tir.Var, a new node appended holding "x", the name
attribute replaced by the index reference "1", and the envelope version
exactly "0.9". -/
theorem thm_C5 :
    (∀ (k : String) (item : Node) (ns : List Node) (v : String),
        getAttr item.attrs k = some v →
        _update_from_std_str k item ns =
          .ok ({ item with attrs := setAttr item.attrs k (Nat.repr ns.length) },
               ns ++ [save_json_string_root v])) ∧
    (upgrade_json 10 ⟨"0.6.1", [⟨"Variable", [("name", "x")], none, none⟩], 0⟩ =
        .ok ⟨"0.9",
          [⟨"tir.Var", [("name", "1"), ("type_annotation", "0")], none, none⟩,
           ⟨"runtime.String", [], none, some "x"⟩], 0⟩) := by
  constructor
  · intro k item ns v hget
    unfold _update_from_std_str
    rw [hget]
  · rfl

/-- C5 witness: the promotion equation applied at a concrete node and
table. -/
theorem thm_C5_witness :
    _update_from_std_str "name" ⟨"tir.Var", [("name", "x")], none, none⟩
        [⟨"tir.Var", [("name", "x")], none, none⟩] =
      .ok (⟨"tir.Var", [("name", "1")], none, none⟩,
           [⟨"tir.Var", [("name", "x")], none, none⟩,
            ⟨"runtime.String", [], none, some "x"⟩]) :=
  thm_C5.1 "name" ⟨"tir.Var", [("name", "x")], none, none⟩
    [⟨"tir.Var", [("name", "x")], none, none⟩] "x" rfl

/-- Dropping the length of a known leading piece of a concatenation leaves
the tail. -/
theorem pyDrop_length_append (p r : String) : pyDrop (p ++ r) p.length = r := by
  obtain ⟨pd⟩ := p
  obtain ⟨rd⟩ := r
  show String.mk ((String.mk pd ++ String.mk rd).data.drop (String.mk pd).length) = String.mk rd
  rw [String.data_append]
  show String.mk ((pd ++ rd).drop pd.length) = String.mk rd
  rw [List.drop_left]

/-- A concatenation starts with its leading piece. -/
theorem pyStartswith_append (p r : String) : pyStartswith (p ++ r) p = true := by
  unfold pyStartswith
  rw [String.data_append]
  exact List.isPrefixOf_iff_prefix.mpr (List.prefix_append _ _)

/-- Full characterization of a successful `_ftype_var` application: the
name attribute of the referenced node is read and copied as name_hint
before the referenced node is tombstoned (only its type_key is blanked),
the var attribute is deleted, and the relay. namespace is stripped. -/
theorem ftype_var_spec {item : Node} {ns : List Node} {s : String} {vi : Int}
    {j : Nat} {ref : Node} {nm rest : String}
    (hvar : getAttr item.attrs "var" = some s)
    (hint : pyInt s = some vi)
    (hidx : pyIndex ns.length vi = some j)
    (href : ns.get? j = some ref)
    (hname : getAttr ref.attrs "name" = some nm)
    (htk : item.type_key = "relay." ++ rest) :
    _ftype_var item ns =
      .ok ({ item with
              type_key := rest,
              attrs := delAttr (setAttr item.attrs "name_hint" nm) "var" },
           ns.set j { ref with type_key := "" }) := by
  unfold _ftype_var
  simp only [hvar, hint, hidx, href, hname]
  rw [htk, if_pos (pyStartswith_append "relay." rest), pyDrop_length_append]

/-- C8: applied to a node whose var attribute parses as an integer index
resolving to an in-bounds entry holding a name attribute, and whose type
tag carries the relay. namespace, `_ftype_var` copies the referenced name
onto the node as name_hint, deletes var, strips the relay. namespace, and
tombstones the referenced entry by blanking only its type_key; the copied
value is the name read before tombstoning. -/
theorem thm_C8 (item : Node) (ns : List Node) (s : String) (vi : Int)
    (j : Nat) (ref : Node) (nm rest : String)
    (hvar : getAttr item.attrs "var" = some s)
    (hint : pyInt s = some vi)
    (hidx : pyIndex ns.length vi = some j)
    (href : ns.get? j = some ref)
    (hname : getAttr ref.attrs "name" = some nm)
    (htk : item.type_key = "relay." ++ rest) :
    _ftype_var item ns =
      .ok ({ item with
              type_key := rest,
              attrs := delAttr (setAttr item.attrs "name_hint" nm) "var" },
           ns.set j { ref with type_key := "" }) :=
  ftype_var_spec hvar hint hidx href hname htk

/-- C8 witness: the characterization applied at a concrete node and
table. -/
theorem thm_C8_witness :
    _ftype_var ⟨"relay.TypeVar", [("var", "1")], none, none⟩
        [⟨"A", [], none, none⟩, ⟨"B", [("name", "n0")], none, none⟩] =
      .ok (⟨"TypeVar", [("name_hint", "n0")], none, none⟩,
           [⟨"A", [], none, none⟩, ⟨"", [("name", "n0")], none, none⟩]) :=
  thm_C8 ⟨"relay.TypeVar", [("var", "1")], none, none⟩
    [⟨"A", [], none, none⟩, ⟨"B", [("name", "n0")], none, none⟩]
    "1" 1 1 ⟨"B", [("name", "n0")], none, none⟩ "n0" "TypeVar"
    rfl rfl rfl rfl rfl rfl

/-- C10: tombstoning changes only the type_key of the referenced entry
(its attrs, global_key and repr_str survive, and all other entries are
untouched), so a second cross-reference rule whose var attribute resolves
to the already-tombstoned entry still reads the original name value. -/
theorem thm_C10 (item item2 : Node) (ns : List Node) (s s2 : String)
    (vi vi2 : Int) (j : Nat) (ref : Node) (nm rest rest2 : String)
    (hvar : getAttr item.attrs "var" = some s)
    (hint : pyInt s = some vi)
    (hidx : pyIndex ns.length vi = some j)
    (href : ns.get? j = some ref)
    (hname : getAttr ref.attrs "name" = some nm)
    (htk : item.type_key = "relay." ++ rest)
    (hvar2 : getAttr item2.attrs "var" = some s2)
    (hint2 : pyInt s2 = some vi2)
    (hidx2 : pyIndex ns.length vi2 = some j)
    (htk2 : item2.type_key = "relay." ++ rest2) :
    _ftype_var item ns =
      .ok ({ item with
              type_key := rest,
              attrs := delAttr (setAttr item.attrs "name_hint" nm) "var" },
           ns.set j { ref with type_key := "" }) ∧
    (ns.set j { ref with type_key := "" }).get? j =
      some { ref with type_key := "" } ∧
    (∀ k, k ≠ j → (ns.set j { ref with type_key := "" }).get? k = ns.get? k) ∧
    _ftype_var item2 (ns.set j { ref with type_key := "" }) =
      .ok ({ item2 with
              type_key := rest2,
              attrs := delAttr (setAttr item2.attrs "name_hint" nm) "var" },
           (ns.set j { ref with type_key := "" }).set j
             { ref with type_key := "" }) := by
  obtain ⟨hjlt, -⟩ := List.get?_eq_some.mp href
  have href2 : (ns.set j { ref with type_key := "" }).get? j =
      some { ref with type_key := "" } :=
    List.get?_set_eq_of_lt _ hjlt
  refine ⟨ftype_var_spec hvar hint hidx href hname htk, href2, ?_, ?_⟩
  · intro k hk
    exact List.get?_set_ne _ _ (Ne.symm hk)
  · exact @ftype_var_spec item2 (ns.set j { ref with type_key := "" }) s2 vi2 j
      { ref with type_key := "" } nm rest2 hvar2 hint2
      (by rw [List.length_set]; exact hidx2) href2 hname htk2

/-- C10 witness: a second cross-reference through the tombstoned entry at
a concrete table still obtains the original name. -/
theorem thm_C10_witness :
    _ftype_var ⟨"relay.GlobalTypeVar", [("var", "1")], none, none⟩
        [⟨"A", [], none, none⟩, ⟨"", [("name", "n0")], none, none⟩] =
      .ok (⟨"GlobalTypeVar", [("name_hint", "n0")], none, none⟩,
           [⟨"A", [], none, none⟩, ⟨"", [("name", "n0")], none, none⟩]) :=
  (thm_C10 ⟨"relay.TypeVar", [("var", "1")], none, none⟩
    ⟨"relay.GlobalTypeVar", [("var", "1")], none, none⟩
    [⟨"A", [], none, none⟩, ⟨"B", [("name", "n0")], none, none⟩]
    "1" "1" 1 1 1 ⟨"B", [("name", "n0")], none, none⟩ "n0" "TypeVar"
    "GlobalTypeVar" rfl rfl rfl rfl rfl rfl rfl rfl rfl rfl).2.2.2

/-- A concrete observer rule used as test data for the applicator: append
the given letter to the log attribute of the visited node. -/
def ruleLog (c : String) : Rule := fun item nodes =>
  .ok ({ item with
          attrs := setAttr item.attrs "log"
            (((getAttr item.attrs "log").getD "") ++ c) }, nodes)

/-- C7: when a list of rules [A, B] is registered for a type tag, the
applicator applies them left to right: A receives the visited node and the
table, B receives the node returned by A together with the table returned
by A, and the stored result at the visited index is the node returned by
B; applying the observer rules in the two orders stores different results,
so the stored node is B(A(n)) and not A(B(n)). -/
theorem thm_C7 :
    (∀ (A B : Rule) (tag : String) (n n1 n2 : Node) (t1 t2 : List Node),
        n.type_key = tag →
        A n [n] = .ok (n1, t1) →
        B n1 t1 = .ok (n2, t2) →
        t2.length = 1 →
        updaterLoop [(tag, .many [A, B])] 2 0 [n] = .ok (t2.set 0 n2)) ∧
    (updaterLoop [("T", .many [ruleLog "a", ruleLog "b"])] 2 0
        [⟨"T", [("log", "")], none, none⟩] =
      .ok [⟨"T", [("log", "ab")], none, none⟩]) ∧
    (updaterLoop [("T", .many [ruleLog "b", ruleLog "a"])] 2 0
        [⟨"T", [("log", "")], none, none⟩] =
      .ok [⟨"T", [("log", "ba")], none, none⟩]) ∧
    (⟨"T", [("log", "ab")], none, none⟩ : Node) ≠
      ⟨"T", [("log", "ba")], none, none⟩ := by
  refine ⟨?_, rfl, rfl, by decide⟩
  intro A B tag n n1 n2 t1 t2 htag hA hB hlen
  rw [show (2 : Nat) = 1 + 1 from rfl, updaterLoop]
  rw [dif_pos (show 0 < [n].length from Nat.zero_lt_one)]
  dsimp only [List.get]
  rw [show lookupRules [(tag, RuleEntry.many [A, B])] n.type_key =
        some (RuleEntry.many [A, B]) from by
      rw [lookupRules, if_pos htag.symm]]
  dsimp only
  rw [show applyRuleList [A, B] n [n] = .ok (n2, t2) from by
      rw [applyRuleList, hA]
      dsimp only
      rw [applyRuleList, hB]
      rfl]
  dsimp only
  rw [updaterLoop]
  rw [dif_neg (show ¬(1 < (t2.set 0 n2).length) from by
      rw [List.length_set, hlen]
      exact Nat.lt_irrefl 1)]

/-- C7 witness: the left-to-right equation applied to the concrete
observer rules. -/
theorem thm_C7_witness :
    updaterLoop [("W", .many [ruleLog "a", ruleLog "b"])] 2 0
        [⟨"W", [("log", "")], none, none⟩] =
      .ok ([⟨"W", [("log", "")], none, none⟩].set 0
            ⟨"W", [("log", "ab")], none, none⟩) :=
  thm_C7.1 (ruleLog "a") (ruleLog "b") "W"
    ⟨"W", [("log", "")], none, none⟩
    ⟨"W", [("log", "a")], none, none⟩
    ⟨"W", [("log", "ab")], none, none⟩
    [⟨"W", [("log", "")], none, none⟩]
    [⟨"W", [("log", "")], none, none⟩]
    rfl rfl rfl rfl

/-- A concrete rule used as test data for the applicator: append one node
carrying the given type tag and the attrs of the visited node. -/
def ruleAppend (tk : String) : Rule := fun item nodes =>
  .ok (item, nodes ++ [⟨tk, item.attrs, none, none⟩])

/-- A version rule set exhibiting pass behaviour on appended nodes: tag A
appends a B node, and tag B has a registered rename-to-C rule. -/
def cexMapC1 : NodeMap :=
  [("A", .one (ruleAppend "B")), ("B", .one (_rename "C"))]

/-- C1 (counterexample): the claim says a version-step pass visits exactly
the indices 0 to L-1 for L the length at iteration start, so a node
appended during the pass has no rule applied to it in that pass.  On the
code the pass starts on the one-node table [A] (L = 1), the rule for A
appends a B node at index 1, and the pass then visits index 1 and applies
the registered rename rule to the appended node: the output tags it "C",
not "B". -/
theorem thm_C1_cex :
    updater cexMapC1 "1.0" "1.1" 10
        ⟨"1.0", [⟨"A", [("payload", "x")], none, none⟩], 0⟩ =
      .ok ⟨"1.1", [⟨"A", [("payload", "x")], none, none⟩,
                   ⟨"C", [("payload", "x")], none, none⟩], 0⟩ := by
  rfl

/-- C1 (amended): a single version-step pass iterates while the index is
below the current table length, re-evaluated at each step (the Python list
iterator of `_updater` does not capture the length up front), so nodes
appended to the table by rules during the pass are themselves visited and
any rule registered for their type tag is applied to them within the same
pass; they are not left untouched for subsequent passes. -/
theorem thm_C1 (s : String) :
    updater cexMapC1 "1.0" "1.1" 10
        ⟨"1.0", [⟨"A", [("payload", s)], none, none⟩], 0⟩ =
      .ok ⟨"1.1", [⟨"A", [("payload", s)], none, none⟩,
                   ⟨"C", [("payload", s)], none, none⟩], 0⟩ := by
  rfl

/-- C6 (counterexample): the claim says every node whose type tag has no
registered rule is left unchanged at its original index.  On the code, in
the 0.6-to-0.7 pass, the cross-reference rule applied to the relay.TypeVar
node at index 0 tombstones the node at index 1, whose tag "Plain" has no
registered rule: the output entry at index 1 differs from the input
entry. -/
theorem thm_C6_cex :
    updater node_map_06_07 "0.6" "0.7" 10
        ⟨"0.6", [⟨"relay.TypeVar", [("var", "1")], none, none⟩,
                 ⟨"Plain", [("name", "y")], none, none⟩], 0⟩ =
      .ok ⟨"0.7", [⟨"TypeVar", [("name_hint", "2")], none, none⟩,
                   ⟨"", [("name", "y")], none, none⟩,
                   ⟨"runtime.String", [], none, some "y"⟩], 0⟩ ∧
    lookupRules node_map_06_07 "Plain" = none ∧
    (⟨"", [("name", "y")], none, none⟩ : Node) ≠
      ⟨"Plain", [("name", "y")], none, none⟩ :=
  ⟨by rfl, by rfl, by decide⟩

/-- C6 (amended): across a single version-step pass over a rule map whose
rules never shrink the table (true of every rule registered in the three
version steps, witnessed by the GoodMap conjuncts), the table length is
monotonically non-decreasing; a visited node whose tag has no registered
rule is written back unchanged at its own index and the pass simply moves
on; but such a node is not guaranteed unchanged across the whole pass,
because rules applied to other nodes may mutate it in place (for example
tombstoning by the cross-reference rule). -/
theorem thm_C6 :
    (∀ m : NodeMap, GoodMap m → ∀ fuel idx ns ns',
        updaterLoop m fuel idx ns = .ok ns' → ns.length ≤ ns'.length) ∧
    (GoodMap node_map_06_07 ∧ GoodMap node_map_07_08 ∧
      GoodMap node_map_08_09) ∧
    (∀ (m : NodeMap) (fuel idx : Nat) (ns : List Node) (h : idx < ns.length),
        lookupRules m (ns.get ⟨idx, h⟩).type_key = none →
        updaterLoop m (fuel + 1) idx ns = updaterLoop m fuel (idx + 1) ns) := by
  refine ⟨fun m hm => updaterLoop_grows hm,
          ⟨goodMap_06_07, goodMap_07_08, goodMap_08_09⟩, ?_⟩
  intro m fuel idx ns h hlook
  rw [updaterLoop, dif_pos h]
  dsimp only
  rw [hlook]
  rw [list_set_get_self]

/-- C6 witness: append-only growth applied to the concrete 0.6-to-0.7 pass
that promotes a name attribute (table grows from 2 to 3 entries). -/
theorem thm_C6_witness :
    ([⟨"relay.TypeVar", [("var", "1")], none, none⟩,
      ⟨"Plain", [("name", "y")], none, none⟩] : List Node).length ≤
      ([⟨"TypeVar", [("name_hint", "2")], none, none⟩,
        ⟨"", [("name", "y")], none, none⟩,
        ⟨"runtime.String", [], none, some "y"⟩] : List Node).length :=
  thm_C6.1 node_map_06_07 goodMap_06_07 10 0 _ _ rfl

/-- C9 (counterexample): the claim says every default-fill rule asserts
when invoked on a type tag it is not registered for.  The virtual-device
fill of the 0.8-to-0.9 step performs no tag check at all: invoked on a
node with an unregistered tag it succeeds and fills the attribute. -/
theorem thm_C9_cex :
    _initialize_virtual_device ⟨"Banana", [], none, none⟩ [] =
      .ok (⟨"Banana", [("virtual_device_", "0")], none, none⟩, []) := by
  rfl

/-- C9 (amended): the 0.7-to-0.8 module-attrs fill fails with an assertion
error whenever invoked on a node whose type tag is not IRModule, and
returns the node unchanged when the attribute is already present; the
0.8-to-0.9 virtual-device fill performs no type-tag check (it never
asserts: on any node lacking the attribute it fills the default), and
returns the node unchanged when the attribute is already present. -/
theorem thm_C9 :
    (∀ (item : Node) (ns : List Node), item.type_key ≠ "IRModule" →
        _initialize_module_attributes item ns =
          .error (.assertionError "Only initialize the attributes for IRModules")) ∧
    (∀ (item : Node) (ns : List Node), item.type_key = "IRModule" →
        (getAttr item.attrs "attrs").isSome = true →
        _initialize_module_attributes item ns = .ok (item, ns)) ∧
    (∀ (item : Node) (ns : List Node),
        (getAttr item.attrs "virtual_device_").isSome = true →
        _initialize_virtual_device item ns = .ok (item, ns)) ∧
    (∀ (item : Node) (ns : List Node),
        getAttr item.attrs "virtual_device_" = none →
        _initialize_virtual_device item ns =
          .ok ({ item with
                  attrs := setAttr item.attrs "virtual_device_" "0" }, ns)) := by
  refine ⟨?_, ?_, ?_, ?_⟩
  · intro item ns hne
    unfold _initialize_module_attributes
    rw [if_neg hne]
  · intro item ns htk hsome
    unfold _initialize_module_attributes
    rw [if_pos htk, if_pos hsome]
  · intro item ns hsome
    unfold _initialize_virtual_device
    rw [if_pos hsome]
  · intro item ns hnone
    unfold _initialize_virtual_device
    rw [if_neg (by rw [hnone]; simp)]

/-- C9 witness: the module-attrs fill asserting on a wrong-tag node. -/
theorem thm_C9_witness :
    _initialize_module_attributes ⟨"GlobalVar", [], none, none⟩ [] =
      .error (.assertionError "Only initialize the attributes for IRModules") :=
  thm_C9.1 ⟨"GlobalVar", [], none, none⟩ [] (by decide)
